import Mathlib

/-!
Shallow embedding of the ai-ppt-researcher backend pipeline
(src/backend/app/services/pipeline.py and
src/backend/app/core/charts/chart_generator.py).

Modelling conventions:
* Python dicts with string keys are association lists preserving insertion
  order (`dlookup`, `dsetdefault`, `dupdate` mirror `.get`, `.setdefault`,
  `.update`).
* Each generative-model call (`_call_llm`) is an oracle of type
  `Except String (String × Option J)`: `.error e` models the call raising,
  `.ok (raw, none)` models returned text `raw` that fails JSON decoding, and
  `.ok (raw, some j)` models text decoding to a JSON object with the fields
  of the fixed per-agent schema (absent keys are `none`).
* Parameters of the Python functions that feed only the prompt text
  (the serialized research state, `max_sources`) are absorbed by the
  oracle and omitted from the Lean signatures.
* Machine arithmetic: EMU dimensions are `Nat`; the float scale factors of
  `_add_chart_slide` are modelled by exact rational arithmetic, so
  `int(x * (a / b))` becomes Nat division `x * a / b`; the float luminance
  test `0.2126*r + 0.7152*g + 0.0722*b < 128` is the exact integer test
  `2126*r + 7152*g + 722*b < 1280000`.
-/

namespace AIPPT

/-- Ordered association list standing for a Python dict with string keys. -/
abbrev Dict (α : Type) : Type := List (String × α)

/-- `d.get(k)` -/
def dlookup {α : Type} : Dict α → String → Option α
  | [], _ => none
  | (k2, v) :: rest, k => if k2 = k then some v else dlookup rest k

/-- `k in d` -/
def dmem {α : Type} (d : Dict α) (k : String) : Bool :=
  (dlookup d k).isSome

/-- `d.setdefault(k, v)`: Python appends a missing key at the end. -/
def dsetdefault {α : Type} (d : Dict α) (k : String) (v : α) : Dict α :=
  if dmem d k then d else d ++ [(k, v)]

/-- `d.update(other)`: existing keys keep their position with the new value,
new keys are appended in `other` order. -/
def dupdate {α : Type} (d other : Dict α) : Dict α :=
  (d.map fun p => match dlookup other p.1 with
    | some v => (p.1, v)
    | none => p) ++
  other.filter fun p => !(dmem d p.1)

/-- `list(d.keys())` -/
def dkeys {α : Type} (d : Dict α) : List String :=
  d.map Prod.fst

/-- One label→number series of `chart_data` (JSON numbers as integers). -/
abbrev ChartSeries : Type := Dict Int

/-- The `chart_data` mapping: chart kind → (label → number). -/
abbrev ChartData : Type := Dict ChartSeries

/-! ## Chart renderer (chart_generator.py) -/

/-- The five if-blocks of `generate_charts`, in source order: recognized
`chart_data` key paired with the fixed PNG filename its generator saves. -/
def chartAttemptList : List (String × String) :=
  [("market_size", "chart_market_size.png"),
   ("market_share", "chart_market_share.png"),
   ("growth_projection", "chart_growth_projection.png"),
   ("competitors", "chart_competitors.png"),
   ("trends", "chart_trends.png")]

/-- `os.path.join(output_dir, filename)` with a plain separator. -/
def joinPath (dir file : String) : String := dir ++ "/" ++ file

/-- Body of `generate_charts`: the five guarded attempts run inside one
shared `try`, so the first failing attempt aborts the remaining ones and the
list accumulated so far is returned.  `ok k` tells whether rendering chart
kind `k` succeeds (an exception during rendering is `ok k = false`). -/
def generateChartsGo (chartData : ChartData) (outputDir : String)
    (ok : String → Bool) : List (String × String) → List String
  | [] => []
  | (k, file) :: rest =>
    if dmem chartData k then
      if ok k then joinPath outputDir file :: generateChartsGo chartData outputDir ok rest
      else []
    else generateChartsGo chartData outputDir ok rest

/-- `generate_charts(slide_plan, output_dir, theme_config)` reads
`slide_plan["chart_data"]` (passed here directly) and renders one image per
present recognized kind, aborting the batch on the first failure; it never
raises for a rendering failure (single `except` around the batch). -/
def generate_charts (chartData : ChartData) (outputDir : String)
    (ok : String → Bool) : List String :=
  generateChartsGo chartData outputDir ok chartAttemptList

/-! ## Data model of the pipeline (pipeline.py) -/

/-- A collected source dict `{url, title, content}` (well-formed entries,
as produced by the fallback and assumed by the `url` / `content` accesses). -/
structure Source where
  url : String
  title : String
  content : String
deriving DecidableEq

/-- Recognized `theme_config` keys, each optional (`tc.get(key, default)`). -/
structure ThemeConfig where
  brandPrimary? : Option String := none
  brandSecondary? : Option String := none
  accentColor? : Option String := none
  backgroundColor? : Option String := none
  textColor? : Option String := none
  fontFamily? : Option String := none
  cornerRadius? : Option Int := none
  themeHint? : Option String := none
  subtextColor? : Option String := none
deriving DecidableEq

/-- The empty `{}` theme dict. -/
def emptyTheme : ThemeConfig := {}

/-- One entry of `sections[]`; the renderer reads the keys with
`sec.get("heading", "Section")` and `sec.get("bullets", [])`, so both are
optional here. -/
structure SectionPlan where
  heading? : Option String
  bullets? : Option (List String)
deriving DecidableEq

/-- Fields of the JSON object the summarizer agent expects
(`build_research_summary`); every key may be absent. -/
structure RSJson where
  topic? : Option String := none
  summary? : Option String := none
  keyPoints? : Option (List String) := none
  statistics? : Option (List String) := none
  trends? : Option (List String) := none
  challenges? : Option (List String) := none
  opportunities? : Option (List String) := none
  sourcesUsed? : Option (List String) := none
deriving DecidableEq

/-- Research-summary dict returned by `build_research_summary`: after its
`setdefault` calls, `topic` and `sources_used` are always present; the other
keys are present only if the parsed output (or the decode-failure default)
supplied them. -/
structure RSummary where
  topic : String
  summary? : Option String
  keyPoints? : Option (List String)
  statistics? : Option (List String)
  trends? : Option (List String)
  challenges? : Option (List String)
  opportunities? : Option (List String)
  sourcesUsed : List String
deriving DecidableEq

/-- Fields of the JSON object the validation agent expects. -/
structure VJson where
  validatedSummary? : Option String := none
  validatedKeyPoints? : Option (List String) := none
  caveats? : Option (List String) := none
  confidence? : Option String := none
  thingsToDoubleCheck? : Option (List String) := none
deriving DecidableEq

/-- Result of `validate_research`: either the parsed object returned as-is,
or the hand-built default dict. -/
inductive ValidationOut where
  | parsed (data : VJson)
  | defaulted (validatedSummary : String) (validatedKeyPoints : List String)
      (caveats : List String) (confidence : String)
      (thingsToDoubleCheck : List String)
deriving DecidableEq

/-- Fields of the JSON object the chart-planning agent expects. -/
structure CPJson where
  chartData? : Option ChartData := none
deriving DecidableEq

/-- Result of `plan_charts_from_research` after its
`data.setdefault("chart_data", {})`: the only key read downstream. -/
structure ChartPlanOut where
  chartData : ChartData
deriving DecidableEq

/-- Fields of the JSON object the recommendation agent expects. -/
structure RecJson where
  keyRecommendations? : Option (List String) := none
  actionPlan? : Option (List String) := none
  summaryRecommendations? : Option (List String) := none
deriving DecidableEq

/-- Result of `generate_recommendations`: parsed object as-is, or the
fixed default of three empty lists. -/
inductive RecOut where
  | parsed (data : RecJson)
  | defaulted (keyRecommendations actionPlan summaryRecommendations : List String)
deriving DecidableEq

/-- Fields of the JSON object the slide-plan agent expects. -/
structure SPJson where
  title? : Option String := none
  subtitle? : Option String := none
  sections? : Option (List SectionPlan) := none
  conclusionBullets? : Option (List String) := none
  chartData? : Option ChartData := none
  themeConfig? : Option ThemeConfig := none
  sourcesUsed? : Option (List String) := none
deriving DecidableEq

/-- Slide plan after the `setdefault` block of `generate_slide_plan`: the five
documented keys plus `theme_config` are always present; `sources_used`
(read later by `generate_ppt`) only if the model supplied it. -/
structure SlidePlan where
  title : String
  subtitle : String
  sections : List SectionPlan
  conclusionBullets : List String
  chartData : ChartData
  themeConfig : ThemeConfig
  sourcesUsed? : Option (List String)
deriving DecidableEq

/-! ## Research agents

Each `_call_llm` is the oracle described in the header.  The agents guard
only `json.loads` with `try`, so an oracle `.error` (the client call
raising) propagates out of every agent unchanged. -/

/-- `collect_sources(topic, max_results)`: the whole `try` block (decode and
`data.get("sources", [])`) is absorbed into the single synthetic source on
failure; a raise from `_call_llm` itself is not caught here. -/
def collect_sources (topic : String)
    (llm : Except String (String × Option (List Source))) :
    Except String (List Source) :=
  match llm with
  | .error e => .error e
  | .ok (_raw, some sourcesList) => .ok sourcesList
  | .ok (_raw, none) =>
      .ok [⟨"https://synthetic.example.com/" ++ topic,
            "Overview of " ++ topic,
            "Synthetic summary for " ++ topic⟩]

/-- `build_research_summary(topic, sources)`: decode failure falls back to
`raw[:3000]` and the source URLs; after decoding, only `topic` and
`sources_used` are `setdefault`-ed. -/
def build_research_summary (topic : String) (sources : List Source)
    (llm : Except String (String × Option RSJson)) : Except String RSummary :=
  match llm with
  | .error e => .error e
  | .ok (raw, none) =>
      .ok ⟨topic, some (raw.take 3000), some [], some [], some [], some [],
           some [], sources.map (·.url)⟩
  | .ok (_raw, some parsed) =>
      .ok ⟨parsed.topic?.getD topic, parsed.summary?, parsed.keyPoints?,
           parsed.statistics?, parsed.trends?, parsed.challenges?,
           parsed.opportunities?,
           parsed.sourcesUsed?.getD (sources.map (·.url))⟩

/-- `validate_research(research)`: decode failure is replaced by the default
dict built from `research.get("summary", "")` and
`research.get("key_points", [])`. -/
def validate_research (research : RSummary)
    (llm : Except String (String × Option VJson)) : Except String ValidationOut :=
  match llm with
  | .error e => .error e
  | .ok (_raw, some parsed) => .ok (.parsed parsed)
  | .ok (_raw, none) =>
      .ok (.defaulted (research.summary?.getD "") (research.keyPoints?.getD [])
            [] "medium" [])

/-- The wholesale `chart_data` default substituted by
`plan_charts_from_research` when decoding fails (pipeline.py lines 255-263). -/
def chartPlanFallbackData : ChartData :=
  [("market_size", [("2020", 8), ("2021", 9), ("2022", 10)]),
   ("market_share", [("Company A", 40), ("Company B", 30), ("Others", 30)]),
   ("growth_projection", [("2024", 15), ("2025", 18), ("2026", 22)]),
   ("competitor_strengths", [("Competitor A", 80), ("Competitor B", 65)]),
   ("trend_frequency", [("Automation", 22), ("Analytics", 14)])]

/-- `plan_charts_from_research(research)` (research feeds only the prompt):
decode failure yields the wholesale default; afterwards
`data.setdefault("chart_data", {})`. -/
def plan_charts_from_research
    (llm : Except String (String × Option CPJson)) : Except String ChartPlanOut :=
  match llm with
  | .error e => .error e
  | .ok (_raw, some parsed) => .ok ⟨parsed.chartData?.getD []⟩
  | .ok (_raw, none) => .ok ⟨chartPlanFallbackData⟩

/-- `generate_recommendations(research)` (research feeds only the prompt). -/
def generate_recommendations
    (llm : Except String (String × Option RecJson)) : Except String RecOut :=
  match llm with
  | .error e => .error e
  | .ok (_raw, some parsed) => .ok (.parsed parsed)
  | .ok (_raw, none) => .ok (.defaulted [] [] [])

/-- `generate_slide_plan(research, theme_config)`: the only field of
`research` read outside the prompt is `research.get("topic", "Report")`,
always present in the enriched research dict.  Decode failure yields the
fallback dict; both paths then run the `setdefault` block. -/
def generate_slide_plan (researchTopic : String)
    (themeConfig : Option ThemeConfig)
    (llm : Except String (String × Option SPJson)) : Except String SlidePlan :=
  match llm with
  | .error e => .error e
  | .ok (_raw, none) =>
      .ok ⟨researchTopic, "Auto-generated", [], [], [],
           themeConfig.getD emptyTheme, none⟩
  | .ok (_raw, some parsed) =>
      .ok ⟨parsed.title?.getD researchTopic,
           parsed.subtitle?.getD "Auto-generated",
           parsed.sections?.getD [],
           parsed.conclusionBullets?.getD [],
           parsed.chartData?.getD [],
           parsed.themeConfig?.getD (themeConfig.getD emptyTheme),
           parsed.sourcesUsed?⟩

/-! ## Slide-plan expansion helper (defined in pipeline.py, lines 428-455) -/

/-- The fixed 9-entry fallback outline of `auto_expand_slide_plan`. -/
def fallbackSections : List SectionPlan :=
  [⟨some "Executive Summary", some ["Overview", "Key insights", "Business snapshot"]⟩,
   ⟨some "Market Overview", some ["Market size", "Growth rate", "Segments", "Drivers"]⟩,
   ⟨some "Industry Trends", some ["Trend 1", "Trend 2", "Trend 3"]⟩,
   ⟨some "Challenges", some ["Challenge 1", "Challenge 2", "Challenge 3"]⟩,
   ⟨some "Opportunities", some ["Opportunity 1", "Opportunity 2"]⟩,
   ⟨some "Competitive Landscape", some ["Player A", "Player B", "Player C"]⟩,
   ⟨some "SWOT Analysis", some ["Strengths", "Weaknesses", "Opportunities", "Threats"]⟩,
   ⟨some "Use Cases", some ["Use Case 1", "Use Case 2"]⟩,
   ⟨some "Future Outlook", some ["Forecast", "Emerging tech"]⟩]

/-- `auto_expand_slide_plan(slide_plan)`: replaces `sections` wholesale by
the 9-entry outline when fewer than 5 sections are present, and
`setdefault`s each of the five chart keys independently with its fixed
illustrative series.  NOTE: this function is defined in pipeline.py but is
never invoked anywhere in the repository. -/
def auto_expand_slide_plan (slidePlan : SlidePlan) : SlidePlan :=
  let sections :=
    if slidePlan.sections.isEmpty || slidePlan.sections.length < 5 then
      fallbackSections
    else slidePlan.sections
  let cd := dsetdefault (dsetdefault (dsetdefault (dsetdefault
      (dsetdefault slidePlan.chartData
        "market_size" [("2020", 10), ("2021", 12), ("2022", 15)])
        "market_share" [("Company A", 40), ("Company B", 35)])
        "growth_projection" [("2024", 20), ("2025", 25), ("2026", 32)])
        "competitor_strengths" [("A", 80), ("B", 60)])
        "trend_frequency" [("Automation", 22), ("Edge AI", 14)]
  { slidePlan with sections := sections, chartData := cd }

/-- The five documented chart keys, in their canonical order. -/
def fiveChartKeys : List String :=
  ["market_size", "market_share", "growth_projection",
   "competitor_strengths", "trend_frequency"]

/-! ## Streaming pipeline orchestrator -/

/-- One yielded progress event dict. -/
structure ProgressEvent where
  status : String
  message : String
  pptFilename : Option String
  pptPath : Option String
  topic : Option String
deriving DecidableEq

def startEvt (topic : String) : ProgressEvent :=
  ⟨"start", "Starting research on: " ++ topic, none, none, none⟩

def searchingEvt : ProgressEvent :=
  ⟨"progress", "🔍 Searching the web...", none, none, none⟩

def foundEvt (n : Nat) : ProgressEvent :=
  ⟨"progress", "✅ Found " ++ toString n ++ " sources.", none, none, none⟩

def analyzingEvt : ProgressEvent :=
  ⟨"progress", "🧠 Analyzing and summarizing content...", none, none, none⟩

def validatingEvt : ProgressEvent :=
  ⟨"progress", "🧹 Validating insights & cleaning output...", none, none, none⟩

def chartPlanningEvt : ProgressEvent :=
  ⟨"progress", "📊 Deriving chart data from research...", none, none, none⟩

def recommendingEvt : ProgressEvent :=
  ⟨"progress", "📌 Generating executive recommendations...", none, none, none⟩

def slidePlanningEvt : ProgressEvent :=
  ⟨"progress", "📝 Generating slide plan...", none, none, none⟩

def searchFailedEvt (e : String) : ProgressEvent :=
  ⟨"error", "Search failed: " ++ e, none, none, none⟩

def doneEvt (filename pptPath topic : String) : ProgressEvent :=
  ⟨"DONE", "Pipeline completed", some filename, some pptPath, some topic⟩

/-- The opaque collaborators of one run: the six generative calls (as in the
header) and the document renderer `generate_ppt`, whose `(filename, path)`
result depends on the wall clock and filesystem and which may itself raise. -/
structure PipelineEnv where
  collectLLM : Except String (String × Option (List Source))
  summarizeLLM : Except String (String × Option RSJson)
  validateLLM : Except String (String × Option VJson)
  chartLLM : Except String (String × Option CPJson)
  recommendLLM : Except String (String × Option RecJson)
  slideLLM : Except String (String × Option SPJson)
  renderPpt : Except String (String × String)

/-- Outcome of draining the async generator: the events yielded, and
`some e` when the generator body raised after the last yielded event
(no terminal event is emitted in that case). -/
structure StreamRun where
  events : List ProgressEvent
  raised : Option String
deriving DecidableEq

/-- Step 7b of `run_research_pipeline_stream` (lines 941-944): merge the
chart planner data into the slide plan when it is non-empty (Python dict
truthiness), via `dict.update`. -/
def mergeChartData (slidePlan : SlidePlan) (chartPlan : ChartPlanOut) : SlidePlan :=
  if chartPlan.chartData.isEmpty then slidePlan
  else { slidePlan with chartData := dupdate slidePlan.chartData chartPlan.chartData }

/-- The slide plan handed to `generate_ppt` by the streaming pipeline: the
stages of `run_research_pipeline_stream` in source order (summary,
validation, chart planning, recommendations, slide planning, chart-data
merge).  `auto_expand_slide_plan` does not appear here because the stream
never calls it. -/
def pipelineSlidePlan (topic : String) (theme : Option ThemeConfig)
    (env : PipelineEnv) : Except String SlidePlan := do
  let sources ← collect_sources topic env.collectLLM
  let researchSummary ← build_research_summary topic sources env.summarizeLLM
  let _validation ← validate_research researchSummary env.validateLLM
  let chartPlan ← plan_charts_from_research env.chartLLM
  let _recommendations ← generate_recommendations env.recommendLLM
  let slidePlan ← generate_slide_plan researchSummary.topic theme env.slideLLM
  pure (mergeChartData slidePlan chartPlan)

/-- `run_research_pipeline_stream(topic, max_sources, theme_config)`:
`max_sources` shapes only the sourcing prompt and is absorbed by the
oracle.  Only the source-collection call sits in a `try`: its failure
yields one terminal error event and returns; an exception from any later
stage propagates out of the generator (`raised`), after the progress
events already yielded. -/
def run_research_pipeline_stream (topic : String) (theme : Option ThemeConfig)
    (env : PipelineEnv) : StreamRun :=
  match collect_sources topic env.collectLLM with
  | .error e => ⟨[startEvt topic, searchingEvt, searchFailedEvt e], none⟩
  | .ok sources =>
    match build_research_summary topic sources env.summarizeLLM with
    | .error e =>
        ⟨[startEvt topic, searchingEvt, foundEvt sources.length, analyzingEvt], some e⟩
    | .ok researchSummary =>
      match validate_research researchSummary env.validateLLM with
      | .error e =>
          ⟨[startEvt topic, searchingEvt, foundEvt sources.length, analyzingEvt,
            validatingEvt], some e⟩
      | .ok _validation =>
        match plan_charts_from_research env.chartLLM with
        | .error e =>
            ⟨[startEvt topic, searchingEvt, foundEvt sources.length, analyzingEvt,
              validatingEvt, chartPlanningEvt], some e⟩
        | .ok _chartPlan =>
          match generate_recommendations env.recommendLLM with
          | .error e =>
              ⟨[startEvt topic, searchingEvt, foundEvt sources.length, analyzingEvt,
                validatingEvt, chartPlanningEvt, recommendingEvt], some e⟩
          | .ok _recommendations =>
            match generate_slide_plan researchSummary.topic theme env.slideLLM with
            | .error e =>
                ⟨[startEvt topic, searchingEvt, foundEvt sources.length, analyzingEvt,
                  validatingEvt, chartPlanningEvt, recommendingEvt,
                  slidePlanningEvt], some e⟩
            | .ok _slidePlan =>
              match env.renderPpt with
              | .error e =>
                  ⟨[startEvt topic, searchingEvt, foundEvt sources.length, analyzingEvt,
                    validatingEvt, chartPlanningEvt, recommendingEvt,
                    slidePlanningEvt], some e⟩
              | .ok (filename, pptPath) =>
                  ⟨[startEvt topic, searchingEvt, foundEvt sources.length, analyzingEvt,
                    validatingEvt, chartPlanningEvt, recommendingEvt,
                    slidePlanningEvt, doneEvt filename pptPath topic], none⟩

/-- `run_research_pipeline(topic, max_sources, theme_config)`: drains the
stream with `async for`, keeping only events whose status is `"DONE"`
(`final_result` starts as the empty dict `{}`, modelled as `none`); an
exception raised by the generator re-raises out of the wrapper. -/
def run_research_pipeline (topic : String) (theme : Option ThemeConfig)
    (env : PipelineEnv) : Except String (Option ProgressEvent) :=
  let run := run_research_pipeline_stream topic theme env
  match run.raised with
  | some e => .error e
  | none =>
      .ok (run.events.foldl
        (fun acc ev => if ev.status == "DONE" then some ev else acc) none)

/-! ## Document renderer: contrast logic (pipeline.py lines 464-630) -/

/-- An `RGBColor(r, g, b)` value. -/
structure RGB where
  r : Nat
  g : Nat
  b : Nat
deriving DecidableEq

def rgbWhite : RGB := ⟨255, 255, 255⟩

def rgbBlack : RGB := ⟨0, 0, 0⟩

/-- Value of a single hexadecimal digit, as accepted by `int(_, 16)`. -/
def hexDigitVal? (c : Char) : Option Nat :=
  if '0' ≤ c ∧ c ≤ '9' then some (c.toNat - '0'.toNat)
  else if 'a' ≤ c ∧ c ≤ 'f' then some (c.toNat - 'a'.toNat + 10)
  else if 'A' ≤ c ∧ c ≤ 'F' then some (c.toNat - 'A'.toNat + 10)
  else none

/-- Accumulator loop of `int(s, 16)` over the digit characters. -/
def parseHexGo : List Char → Nat → Option Nat
  | [], acc => some acc
  | c :: rest, acc =>
    match hexDigitVal? c with
    | some d => parseHexGo rest (16 * acc + d)
    | none => none

/-- `int(s, 16)` on a string slice: raises (`none`) on an empty or
non-hexadecimal slice. -/
def parseHex? (chars : List Char) : Option Nat :=
  if chars.isEmpty then none else parseHexGo chars 0

/-- `is_dark_color(hex_color)`: strips leading `#`, parses the three byte
slices, and tests the weighted luminance `0.2126*r + 0.7152*g + 0.0722*b
< 128` (here scaled by 10000 to integers).  `none` models the `int`
call raising on a malformed color. -/
def is_dark_color (hexColor : String) : Option Bool := do
  let cs := hexColor.data.dropWhile (fun c => c == '#')
  let r ← parseHex? (cs.take 2)
  let g ← parseHex? ((cs.drop 2).take 2)
  let b ← parseHex? ((cs.drop 4).take 2)
  pure (2126 * r + 7152 * g + 722 * b < 1280000)

/-- Card-panel color chosen by `_add_rounded_rect_background`: `some none`
when `corner_radius <= 0` disables the panel (Python returns `None, None`),
`some (some c)` with `c` white on a dark background and black on a light
one; outer `none` models the malformed-hex raise. -/
def cardColorFor (themeConfig : ThemeConfig) : Option (Option RGB) :=
  let radius := themeConfig.cornerRadius?.getD 40
  if radius ≤ 0 then some none
  else
    match is_dark_color (themeConfig.backgroundColor?.getD "#121212") with
    | none => none
    | some darkBg => some (some (if darkBg then rgbWhite else rgbBlack))

/-- Body (bullet) text color chosen by `_add_bullet_slide`: dark bullets
`RGBColor(30,30,30)` exactly when the card color equals white, light
bullets `RGBColor(240,240,240)` otherwise (including the no-panel case,
where `card_color` is `None`). -/
def bulletTextColor (themeConfig : ThemeConfig) : Option RGB :=
  (cardColorFor themeConfig).map fun cardColor =>
    if cardColor = some rgbWhite then ⟨30, 30, 30⟩ else ⟨240, 240, 240⟩

/-! ## Document renderer: chart-image scaling (pipeline.py lines 729-753) -/

/-- `prs.slide_width - Inches(1.7)`: the content box width, in EMU
(`int(1.7 * 914400) = 1554480`). -/
def chartSlideMaxWidth (slideWidth : Nat) : Nat := slideWidth - 1554480

/-- `prs.slide_height - Inches(2.2)`: the content box height, in EMU
(`int(2.2 * 914400) = 2011680`). -/
def chartSlideMaxHeight (slideHeight : Nat) : Nat := slideHeight - 2011680

/-- The two sequential auto-scale steps of `_add_chart_slide`: scale down to
the box width if too wide, then to the box height if (still) too tall; each
step multiplies both dimensions by the same ratio, truncating to int.
`int(x * (a / b))` is modelled exactly as `x * a / b` in Nat division. -/
def scaleChartImage (maxWidth maxHeight w h : Nat) : Nat × Nat :=
  let p1 := if maxWidth < w then (w * maxWidth / w, h * maxWidth / w) else (w, h)
  if maxHeight < p1.2 then (p1.1 * maxHeight / p1.2, p1.2 * maxHeight / p1.2)
  else p1

/-- `pic.left = int((prs.slide_width - pic.width) / 2)`. -/
def centerLeft (slideWidth w : Nat) : Nat := (slideWidth - w) / 2

/-! ## Concrete run fixtures used by the closed theorems -/

/-- A concrete well-formed source entry. -/
def srcEV : Source :=
  ⟨"https://example.com/ev", "EV Overview", "Some page text"⟩

/-- A concrete research summary (used as the input of a failing stage). -/
def rsEV : RSummary :=
  ⟨"Electric Vehicles", some "A summary", some ["kp"], some [], some [],
   some [], some [], ["https://example.com/ev"]⟩

/-- Parsed summarizer output that itself supplies an empty
`sources_used` list. -/
def rsJsonEmptySources : RSJson :=
  { sourcesUsed? := some [] }

/-- Run whose source collection raises (`_call_llm` failure at sourcing). -/
def envSearchFail : PipelineEnv :=
  { collectLLM := .error "boom",
    summarizeLLM := .ok ("", none),
    validateLLM := .ok ("", none),
    chartLLM := .ok ("", none),
    recommendLLM := .ok ("", none),
    slideLLM := .ok ("", none),
    renderPpt := .ok ("deck.pptx", "outputs/deck.pptx") }

/-- Run where sourcing succeeds but the validation-stage client call
raises. -/
def envValidateRaise : PipelineEnv :=
  { collectLLM := .ok ("", some [srcEV]),
    summarizeLLM := .ok ("", none),
    validateLLM := .error "rate limited",
    chartLLM := .ok ("", none),
    recommendLLM := .ok ("", none),
    slideLLM := .ok ("", none),
    renderPpt := .ok ("deck.pptx", "outputs/deck.pptx") }

/-- Run where the chart planner parses successfully but returns only one of
the five chart keys, while the slide planner output fails to decode. -/
def envPartialCharts : PipelineEnv :=
  { collectLLM := .ok ("", some [srcEV]),
    summarizeLLM := .ok ("", none),
    validateLLM := .ok ("", none),
    chartLLM := .ok ("", some { chartData? := some [("market_size", [("2020", 1)])] }),
    recommendLLM := .ok ("", none),
    slideLLM := .ok ("", none),
    renderPpt := .ok ("deck.pptx", "outputs/deck.pptx") }

/-- Run under total generative failure: every call returns text that fails
to decode. -/
def envAllDecodeFail : PipelineEnv :=
  { collectLLM := .ok ("not json", none),
    summarizeLLM := .ok ("not json", none),
    validateLLM := .ok ("not json", none),
    chartLLM := .ok ("not json", none),
    recommendLLM := .ok ("not json", none),
    slideLLM := .ok ("not json", none),
    renderPpt := .ok ("deck.pptx", "outputs/deck.pptx") }

/-! ## Theorems -/

/-- Claim C1, counterexample: the claim says the post-sourcing stages
"never propagate an exception, even when the generative-client call itself
raises"; but `_call_llm` sits outside the `try` of every agent, so a raising
client call propagates out of `validate_research` unchanged, and the
streaming pipeline then fails after the sourcing stage (the generator
raises; no terminal error event is emitted). -/
theorem validate_research_propagates_client_exception :
    validate_research rsEV (.error "rate limited") = .error "rate limited" ∧
    (run_research_pipeline_stream "Electric Vehicles" none envValidateRaise).raised
      = some "rate limited" ∧
    (run_research_pipeline_stream "Electric Vehicles" none envValidateRaise).events.filter
      (fun ev => ev.status == "error") = [] :=
  ⟨rfl, rfl, rfl⟩

/-- Claim C1, amended: each of the five post-sourcing agents absorbs a
generative output that fails JSON decoding into its fixed default, and
returns normally on any output decoding to an object of its schema; but an
exception raised by the generative-client call itself propagates out of
every one of them, so a run can in fact fail after sourcing. -/
theorem agents_absorb_decode_failures_but_propagate_client_exceptions :
    ∀ (topic : String) (sources : List Source) (research : RSummary)
      (theme : Option ThemeConfig) (raw : String)
      (pb : Option RSJson) (pv : Option VJson) (pch : Option CPJson)
      (pr : Option RecJson) (ps : Option SPJson) (e : String),
      (∃ v, build_research_summary topic sources (.ok (raw, pb)) = .ok v) ∧
      build_research_summary topic sources (.error e) = .error e ∧
      (∃ v, validate_research research (.ok (raw, pv)) = .ok v) ∧
      validate_research research (.error e) = .error e ∧
      (∃ v, plan_charts_from_research (.ok (raw, pch)) = .ok v) ∧
      plan_charts_from_research (.error e) = .error e ∧
      (∃ v, generate_recommendations (.ok (raw, pr)) = .ok v) ∧
      generate_recommendations (.error e) = .error e ∧
      (∃ v, generate_slide_plan topic theme (.ok (raw, ps)) = .ok v) ∧
      generate_slide_plan topic theme (.error e) = .error e := by
  intro topic sources research theme raw pb pv pch pr ps e
  refine ⟨?_, rfl, ?_, rfl, ?_, rfl, ?_, rfl, ?_, rfl⟩
  · cases pb <;> exact ⟨_, rfl⟩
  · cases pv <;> exact ⟨_, rfl⟩
  · cases pch <;> exact ⟨_, rfl⟩
  · cases pr <;> exact ⟨_, rfl⟩
  · cases ps <;> exact ⟨_, rfl⟩

/-- Claim C2, failing run: the streaming pipeline never calls
`auto_expand_slide_plan`, so when the chart planner parses successfully but
supplies only one chart key (and the slide planner output fails to decode),
the slide plan reaching `generate_ppt` carries exactly one chart key, not
the five the claim requires; applying the never-invoked
`auto_expand_slide_plan` to that same plan would complete the five keys. -/
theorem pipeline_chart_data_misses_keys_without_auto_expand :
    (pipelineSlidePlan "Electric Vehicles" none envPartialCharts).map
      (fun p => dkeys p.chartData) = .ok ["market_size"] ∧
    ["market_size"] ≠ fiveChartKeys ∧
    (pipelineSlidePlan "Electric Vehicles" none envPartialCharts).map
      (fun p => dkeys (auto_expand_slide_plan p).chartData) = .ok fiveChartKeys :=
  ⟨rfl, by decide, rfl⟩

/-- Claim C3, failing run: under total generative failure the slide plan
consumed by the document renderer has an empty `sections` list — the
9-entry fallback outline is applied only inside `auto_expand_slide_plan`,
which no pipeline run invokes. -/
theorem pipeline_sections_not_expanded_to_fallback_outline :
    (pipelineSlidePlan "Electric Vehicles" none envAllDecodeFail).map
      (fun p => p.sections) = .ok [] ∧
    (pipelineSlidePlan "Electric Vehicles" none envAllDecodeFail).map
      (fun p => (auto_expand_slide_plan p).sections) = .ok fallbackSections ∧
    fallbackSections.length = 9 :=
  ⟨rfl, rfl, rfl⟩

/-- Claim C4, counterexample: a `chart_data` containing the documented keys
`competitor_strengths` and `trend_frequency` yields no image at all —
`generate_charts` tests for the keys `competitors` and `trends` instead, so
both documented keys are skipped as unrecognized even though the rendering
helpers for the corresponding images exist. -/
theorem competitor_strengths_and_trend_frequency_not_rendered :
    dmem [("competitor_strengths", [("Competitor A", (80 : Int))]),
          ("trend_frequency", [("Trend A", 20)])] "competitor_strengths" = true ∧
    generate_charts
      [("competitor_strengths", [("Competitor A", 80)]),
       ("trend_frequency", [("Trend A", 20)])] "outputs" (fun _ => true) = [] :=
  ⟨rfl, rfl⟩

/-- Claim C5, counterexample: with theme background `#000000` (and the
default corner radius) the chosen body text color is the dark
`RGBColor(30,30,30)`, not white — the background is dark, so the card panel
is white and the bullets contrast against the panel; symmetrically,
background `#FFFFFF` yields the light `RGBColor(240,240,240)`, not
near-black. -/
theorem black_background_gives_dark_body_text :
    bulletTextColor { backgroundColor? := some "#000000" } = some ⟨30, 30, 30⟩ ∧
    (⟨30, 30, 30⟩ : RGB) ≠ rgbWhite ∧
    bulletTextColor { backgroundColor? := some "#FFFFFF" } = some ⟨240, 240, 240⟩ ∧
    (⟨240, 240, 240⟩ : RGB) ≠ ⟨20, 20, 20⟩ :=
  ⟨rfl, by decide, rfl, by decide⟩

/-- Claim C6, counterexample: when the stream terminates in an error event,
the synchronous wrapper does not return that terminal payload — its loop
keeps only `"DONE"` events, so it returns the initial empty dict. -/
theorem wrapper_returns_empty_on_error_terminal :
    run_research_pipeline "EV" none envSearchFail = .ok none ∧
    (run_research_pipeline_stream "EV" none envSearchFail).events.getLast?
      = some (searchFailedEvt "boom") ∧
    (none : Option ProgressEvent) ≠ some (searchFailedEvt "boom") :=
  ⟨rfl, rfl, by decide⟩

/-- Claim C9, counterexample: with one collected source, a generative
output that decodes to an object carrying `"sources_used": []` passes
straight through `setdefault`, leaving the `sources_used` of the summary empty
although `sources` is non-empty. -/
theorem sources_used_can_be_empty_from_parsed_output :
    build_research_summary "t" [srcEV] (.ok ("", some rsJsonEmptySources))
      = .ok ⟨"t", none, none, none, none, none, none, []⟩ ∧
    ([srcEV] : List Source) ≠ [] :=
  ⟨rfl, by decide⟩

/-- The loop of `generate_charts` renders, in attempt order, the present
recognized kinds up to (excluding) the first failing one, and nothing
after it. -/
lemma generateChartsGo_eq_takeWhile (cd : ChartData) (od : String)
    (ok : String → Bool) :
    ∀ l : List (String × String),
      generateChartsGo cd od ok l =
        ((l.filter fun a => dmem cd a.1).takeWhile fun a => ok a.1).map
          (fun a => joinPath od a.2) := by
  intro l
  induction l with
  | nil => rfl
  | cons a rest ih =>
    obtain ⟨k, f⟩ := a
    by_cases hm : dmem cd k
    · by_cases ho : ok k
      · simp [generateChartsGo, hm, ho, List.filter_cons, List.takeWhile, ih]
      · simp [generateChartsGo, hm, ho, List.filter_cons, List.takeWhile]
    · simp [generateChartsGo, hm, List.filter_cons, ih]

/-- Claim C4, amended: the fixed chart-kind set `generate_charts`
recognizes is `market_size`, `market_share`, `growth_projection`,
`competitors`, `trends`; with no rendering failure it renders exactly one
image per present recognized kind, in attempt order, and skips every other
key — including the documented `competitor_strengths` and
`trend_frequency`, which are therefore never rendered. -/
theorem generate_charts_renders_recognized_kinds :
    ∀ (cd : ChartData) (outputDir : String),
      generate_charts cd outputDir (fun _ => true) =
        (chartAttemptList.filter fun a => dmem cd a.1).map
          (fun a => joinPath outputDir a.2) := by
  intro cd od
  rw [generate_charts, generateChartsGo_eq_takeWhile]
  congr 1
  exact List.takeWhile_eq_self_iff.mpr (fun a _ => rfl)

/-- Claim C10: `generate_charts` never raises for a rendering failure (the
five attempts share one handler and the accumulated list is returned), and
its result is the attempt-order restriction to present recognized keys,
truncated at the first failing kind — hence always a prefix of the
all-success result, and no kind after a failure is attempted. -/
theorem generate_charts_returns_prefix_of_attempt_order :
    ∀ (cd : ChartData) (outputDir : String) (ok : String → Bool),
      generate_charts cd outputDir ok =
        ((chartAttemptList.filter fun a => dmem cd a.1).takeWhile
          fun a => ok a.1).map (fun a => joinPath outputDir a.2) ∧
      ∃ rest, generate_charts cd outputDir (fun _ => true)
        = generate_charts cd outputDir ok ++ rest := by
  intro cd od ok
  refine ⟨generateChartsGo_eq_takeWhile cd od ok chartAttemptList,
    ((chartAttemptList.filter fun a => dmem cd a.1).dropWhile
      fun a => ok a.1).map (fun a => joinPath od a.2), ?_⟩
  rw [generate_charts, generate_charts, generateChartsGo_eq_takeWhile,
    generateChartsGo_eq_takeWhile, ← List.map_append,
    List.takeWhile_append_dropWhile]
  congr 1
  exact List.takeWhile_eq_self_iff.mpr (fun a _ => rfl)

/-- Claim C7: if the source-collection call raises, the event sequence is
exactly start, the searching notice, and one terminal error event; no
summarizing/validating/chart-planning/recommending/slide-planning/DONE
event is ever emitted, and the generator returns (does not raise). -/
theorem sourcing_failure_is_terminal :
    ∀ (topic : String) (theme : Option ThemeConfig) (env : PipelineEnv)
      (e : String), env.collectLLM = .error e →
      run_research_pipeline_stream topic theme env =
        ⟨[startEvt topic, searchingEvt, searchFailedEvt e], none⟩ ∧
      ((run_research_pipeline_stream topic theme env).events.filter
        (fun ev => ev.status == "error")).length = 1 ∧
      (run_research_pipeline_stream topic theme env).events.getLast?
        = some (searchFailedEvt e) := by
  intro topic theme env e h
  have hrun : run_research_pipeline_stream topic theme env =
      ⟨[startEvt topic, searchingEvt, searchFailedEvt e], none⟩ := by
    simp only [run_research_pipeline_stream, collect_sources, h]
  refine ⟨hrun, ?_, ?_⟩ <;>
    simp [hrun, startEvt, searchingEvt, searchFailedEvt, List.getLast?]

/-- Claim C7, witness at a concrete failing run. -/
theorem sourcing_failure_is_terminal_witness :
    run_research_pipeline_stream "EV" none envSearchFail =
      ⟨[startEvt "EV", searchingEvt, searchFailedEvt "boom"], none⟩ ∧
    ((run_research_pipeline_stream "EV" none envSearchFail).events.filter
      (fun ev => ev.status == "error")).length = 1 ∧
    (run_research_pipeline_stream "EV" none envSearchFail).events.getLast?
      = some (searchFailedEvt "boom") :=
  sourcing_failure_is_terminal "EV" none envSearchFail "boom" rfl

/-- Claim C9, amended: `sources_used` is non-empty whenever the collected
sources are non-empty, unless the parsed generative output itself supplies
an (empty) `sources_used` list — the default `sources.map url` is applied
only when decoding fails or the key is absent. -/
theorem sources_used_nonempty_unless_output_supplies_empty :
    ∀ (topic : String) (sources : List Source) (raw : String)
      (parsed : Option RSJson) (rs : RSummary),
      sources ≠ [] →
      build_research_summary topic sources (.ok (raw, parsed)) = .ok rs →
      rs.sourcesUsed = [] →
      parsed.bind (fun j => j.sourcesUsed?) = some [] := by
  intro topic sources raw parsed rs hne hb hsu
  cases parsed with
  | none =>
    simp only [build_research_summary, Except.ok.injEq] at hb
    rw [← hb] at hsu
    simp only [List.map_eq_nil_iff] at hsu
    exact absurd hsu hne
  | some j =>
    simp only [build_research_summary, Except.ok.injEq] at hb
    rw [← hb] at hsu
    simp only at hsu
    cases hj : j.sourcesUsed? with
    | none => rw [hj] at hsu; simp only [Option.getD_none, List.map_eq_nil_iff] at hsu
              exact absurd hsu hne
    | some l => rw [hj] at hsu; simp only [Option.getD_some] at hsu
                simp [Option.bind, hj, hsu]

/-- Claim C9, witness: the amended statement applied at a concrete run in
which the parsed output supplies an empty list. -/
theorem sources_used_nonempty_unless_output_supplies_empty_witness :
    ([srcEV] : List Source) ≠ [] ∧
    build_research_summary "t" [srcEV] (.ok ("", some rsJsonEmptySources))
      = .ok ⟨"t", none, none, none, none, none, none, []⟩ ∧
    (some rsJsonEmptySources).bind (fun j => j.sourcesUsed?) = some [] :=
  ⟨by decide, rfl,
   sources_used_nonempty_unless_output_supplies_empty "t" [srcEV] ""
     (some rsJsonEmptySources) ⟨"t", none, none, none, none, none, none, []⟩
     (by decide) rfl rfl⟩

/-- Claim C5, amended: the body text color is the high-contrast complement
of the card-panel color chosen for the background: background `#000000`
(dark) yields a white panel and near-black `RGBColor(30,30,30)` bullets;
background `#FFFFFF` (light) yields a black panel and near-white
`RGBColor(240,240,240)` bullets; when `corner_radius` disables the panel
the bullets are always the light color. -/
theorem body_text_contrasts_with_panel :
    ∀ (tc : ThemeConfig),
      (0 < tc.cornerRadius?.getD 40 →
        (tc.backgroundColor? = some "#000000" →
          cardColorFor tc = some (some rgbWhite) ∧
          bulletTextColor tc = some ⟨30, 30, 30⟩) ∧
        (tc.backgroundColor? = some "#FFFFFF" →
          cardColorFor tc = some (some rgbBlack) ∧
          bulletTextColor tc = some ⟨240, 240, 240⟩)) ∧
      (tc.cornerRadius?.getD 40 ≤ 0 →
        cardColorFor tc = some none ∧
        bulletTextColor tc = some ⟨240, 240, 240⟩) := by
  intro tc
  have hblack : is_dark_color "#000000" = some true := rfl
  have hwhite : is_dark_color "#FFFFFF" = some false := rfl
  constructor
  · intro hrad
    have hif : ¬ (tc.cornerRadius?.getD 40 ≤ 0) := by omega
    constructor
    · intro hbg
      have h1 : cardColorFor tc = some (some rgbWhite) := by
        simp [cardColorFor, hif, hbg, hblack]
      refine ⟨h1, ?_⟩
      simp [bulletTextColor, h1]
    · intro hbg
      have h1 : cardColorFor tc = some (some rgbBlack) := by
        simp [cardColorFor, hif, hbg, hwhite]
      refine ⟨h1, ?_⟩
      simp [bulletTextColor, h1, rgbBlack, rgbWhite]
  · intro hrad
    have h1 : cardColorFor tc = some none := by
      simp [cardColorFor, hrad]
    refine ⟨h1, ?_⟩
    simp [bulletTextColor, h1]

/-- Claim C5, witness: the amended statement applied at the two concrete
backgrounds. -/
theorem body_text_contrasts_with_panel_witness :
    (cardColorFor { backgroundColor? := some "#000000" } = some (some rgbWhite) ∧
     bulletTextColor { backgroundColor? := some "#000000" } = some ⟨30, 30, 30⟩) ∧
    (cardColorFor { backgroundColor? := some "#FFFFFF" } = some (some rgbBlack) ∧
     bulletTextColor { backgroundColor? := some "#FFFFFF" } = some ⟨240, 240, 240⟩) :=
  ⟨((body_text_contrasts_with_panel _).1 (by decide)).1 rfl,
   ((body_text_contrasts_with_panel _).1 (by decide)).2 rfl⟩

/-- Every successful generative call leaves `collect_sources` successful. -/
lemma collect_sources_ok (topic raw : String) (p : Option (List Source)) :
    ∃ l, collect_sources topic (.ok (raw, p)) = .ok l := by
  cases p <;> exact ⟨_, rfl⟩

/-- Every successful generative call leaves `build_research_summary`
successful. -/
lemma build_research_summary_ok (topic : String) (sources : List Source)
    (raw : String) (p : Option RSJson) :
    ∃ v, build_research_summary topic sources (.ok (raw, p)) = .ok v := by
  cases p <;> exact ⟨_, rfl⟩

/-- Every successful generative call leaves `validate_research`
successful. -/
lemma validate_research_ok (research : RSummary) (raw : String)
    (p : Option VJson) :
    ∃ v, validate_research research (.ok (raw, p)) = .ok v := by
  cases p <;> exact ⟨_, rfl⟩

/-- Every successful generative call leaves `plan_charts_from_research`
successful. -/
lemma plan_charts_from_research_ok (raw : String) (p : Option CPJson) :
    ∃ v, plan_charts_from_research (.ok (raw, p)) = .ok v := by
  cases p <;> exact ⟨_, rfl⟩

/-- Every successful generative call leaves `generate_recommendations`
successful. -/
lemma generate_recommendations_ok (raw : String) (p : Option RecJson) :
    ∃ v, generate_recommendations (.ok (raw, p)) = .ok v := by
  cases p <;> exact ⟨_, rfl⟩

/-- Every successful generative call leaves `generate_slide_plan`
successful. -/
lemma generate_slide_plan_ok (topic : String) (theme : Option ThemeConfig)
    (raw : String) (p : Option SPJson) :
    ∃ v, generate_slide_plan topic theme (.ok (raw, p)) = .ok v := by
  cases p <;> exact ⟨_, rfl⟩

/-- Claim C6, amended: the synchronous wrapper drains the whole stream; when
the generator completes (does not raise), it returns the terminal event
exactly when that event is the `DONE` event, and the initial empty dict
otherwise (in particular after an error-terminated sequence); a generator
exception re-raises out of the wrapper. -/
theorem wrapper_returns_done_payload :
    ∀ (topic : String) (theme : Option ThemeConfig) (env : PipelineEnv),
      (run_research_pipeline_stream topic theme env).raised = none →
      run_research_pipeline topic theme env =
        .ok ((run_research_pipeline_stream topic theme env).events.getLast?.bind
          (fun ev => if ev.status == "DONE" then some ev else none)) := by
  intro topic theme env h
  obtain ⟨c, s, v, cp, r, sp, rd⟩ := env
  simp only [run_research_pipeline, run_research_pipeline_stream] at h ⊢
  cases c with
  | error e => rfl
  | ok pc =>
    obtain ⟨rawc, pc⟩ := pc
    obtain ⟨srcs, hc⟩ := collect_sources_ok topic rawc pc
    simp only [hc] at h ⊢
    cases s with
    | error e => simp [build_research_summary] at h
    | ok ps =>
      obtain ⟨raws, ps⟩ := ps
      obtain ⟨rs, hs⟩ := build_research_summary_ok topic srcs raws ps
      simp only [hs] at h ⊢
      cases v with
      | error e => simp [validate_research] at h
      | ok pv =>
        obtain ⟨rawv, pv⟩ := pv
        obtain ⟨vv, hv⟩ := validate_research_ok rs rawv pv
        simp only [hv] at h ⊢
        cases cp with
        | error e => simp [plan_charts_from_research] at h
        | ok pcp =>
          obtain ⟨rawcp, pcp⟩ := pcp
          obtain ⟨cpv, hcp⟩ := plan_charts_from_research_ok rawcp pcp
          simp only [hcp] at h ⊢
          cases r with
          | error e => simp [generate_recommendations] at h
          | ok pr =>
            obtain ⟨rawr, pr⟩ := pr
            obtain ⟨rv, hr⟩ := generate_recommendations_ok rawr pr
            simp only [hr] at h ⊢
            cases sp with
            | error e => simp [generate_slide_plan] at h
            | ok psp =>
              obtain ⟨rawsp, psp⟩ := psp
              obtain ⟨spv, hsp⟩ := generate_slide_plan_ok rs.topic theme rawsp psp
              simp only [hsp] at h ⊢
              cases rd with
              | error e => simp at h
              | ok prd =>
                obtain ⟨fn, fp⟩ := prd
                rfl

/-- Claim C6, witness: a concrete completed run ending in `DONE`. -/
theorem wrapper_returns_done_payload_witness :
    (run_research_pipeline_stream "EV" none envAllDecodeFail).raised = none ∧
    run_research_pipeline "EV" none envAllDecodeFail =
      .ok ((run_research_pipeline_stream "EV" none envAllDecodeFail).events.getLast?.bind
        (fun ev => if ev.status == "DONE" then some ev else none)) :=
  ⟨rfl, wrapper_returns_done_payload "EV" none envAllDecodeFail rfl⟩

/-- Truncating division undershoots by less than one divisor. -/
lemma lt_succ_div_mul (a b : Nat) (hb : 0 < b) : a < (a / b + 1) * b := by
  have h1 := Nat.div_add_mod a b
  have h2 := Nat.mod_lt a hb
  nlinarith [h1, h2]

/-- Both sequential scaling steps of `_add_chart_slide` keep the image
inside the box and preserve the aspect ratio up to the integer
truncation of each dimension. -/
lemma scaleChartImage_spec (maxW maxH w h : Nat) (hw : 0 < w) (hh : 0 < h) :
    (scaleChartImage maxW maxH w h).1 ≤ maxW ∧
    (scaleChartImage maxW maxH w h).2 ≤ maxH ∧
    (scaleChartImage maxW maxH w h).1 * h ≤ w * ((scaleChartImage maxW maxH w h).2 + 1) ∧
    (scaleChartImage maxW maxH w h).2 * w ≤ h * ((scaleChartImage maxW maxH w h).1 + 1) := by
  unfold scaleChartImage
  by_cases h1 : maxW < w
  · simp only [if_pos h1]
    have hWw : w * maxW / w = maxW := Nat.mul_div_cancel_left maxW hw
    rw [hWw]
    set q := h * maxW / w with hqdef
    have hq1 : q * w ≤ h * maxW := Nat.div_mul_le_self (h * maxW) w
    have hq2 : h * maxW < (q + 1) * w := lt_succ_div_mul (h * maxW) w hw
    by_cases h2 : maxH < q
    · simp only [if_pos h2]
      have hq0 : 0 < q := by omega
      have hHq : q * maxH / q = maxH := Nat.mul_div_cancel_left maxH hq0
      rw [hHq]
      set u := maxW * maxH / q with hudef
      have hu1 : u * q ≤ maxW * maxH := Nat.div_mul_le_self (maxW * maxH) q
      have hu2 : maxW * maxH < (u + 1) * q := lt_succ_div_mul (maxW * maxH) q hq0
      have huW : u ≤ maxW := by
        have hm : maxW * maxH ≤ maxW * q := Nat.mul_le_mul_left maxW (le_of_lt h2)
        calc u = maxW * maxH / q := hudef
          _ ≤ maxW * q / q := Nat.div_le_div_right hm
          _ = maxW := Nat.mul_div_left maxW hq0
      refine ⟨huW, le_refl maxH, ?_, ?_⟩
      · -- u * h ≤ w * (maxH + 1)
        have hk : u * h * q < w * (maxH + 1) * q := by
          nlinarith [hu1, hq1, hq2, h2]
        exact le_of_lt (Nat.lt_of_mul_lt_mul_right hk)
      · -- maxH * w ≤ h * (u + 1)
        have hk : maxH * w * q < h * (u + 1) * q := by
          nlinarith [hu2, hq1]
        exact le_of_lt (Nat.lt_of_mul_lt_mul_right hk)
    · simp only [if_neg h2]
      push_neg at h2
      refine ⟨le_refl maxW, h2, ?_, ?_⟩
      · nlinarith [hq2]
      · nlinarith [hq1]
  · simp only [if_neg h1]
    push_neg at h1
    by_cases h2 : maxH < h
    · simp only [if_pos h2]
      have hHh : h * maxH / h = maxH := Nat.mul_div_cancel_left maxH hh
      rw [hHh]
      set u := w * maxH / h with hudef
      have hu1 : u * h ≤ w * maxH := Nat.div_mul_le_self (w * maxH) h
      have hu2 : w * maxH < (u + 1) * h := lt_succ_div_mul (w * maxH) h hh
      have huw : u ≤ w := by
        have hm : w * maxH ≤ w * h := Nat.mul_le_mul_left w (le_of_lt h2)
        calc u = w * maxH / h := hudef
          _ ≤ w * h / h := Nat.div_le_div_right hm
          _ = w := Nat.mul_div_left w hh
      refine ⟨le_trans huw h1, le_refl maxH, ?_, ?_⟩
      · nlinarith [hu1]
      · nlinarith [hu2]
    · simp only [if_neg h2]
      push_neg at h2
      exact ⟨h1, h2, by nlinarith, by nlinarith⟩

/-- Claim C8: the scaled chart image never exceeds the fixed content box
(`slide_width - Inches(1.7)` by `slide_height - Inches(2.2)`) in either
dimension — the more constraining axis fixes the net scale — the aspect
ratio is preserved within the integer-rounding tolerance of one EMU-rounded
step per dimension, and the image is then horizontally centered (its left
and right margins differ by at most one EMU). -/
theorem chart_image_scaling_fits_box :
    ∀ (slideWidth slideHeight w h : Nat), 0 < w → 0 < h →
      (scaleChartImage (chartSlideMaxWidth slideWidth)
        (chartSlideMaxHeight slideHeight) w h).1 ≤ chartSlideMaxWidth slideWidth ∧
      (scaleChartImage (chartSlideMaxWidth slideWidth)
        (chartSlideMaxHeight slideHeight) w h).2 ≤ chartSlideMaxHeight slideHeight ∧
      (scaleChartImage (chartSlideMaxWidth slideWidth)
        (chartSlideMaxHeight slideHeight) w h).1 * h
        ≤ w * ((scaleChartImage (chartSlideMaxWidth slideWidth)
            (chartSlideMaxHeight slideHeight) w h).2 + 1) ∧
      (scaleChartImage (chartSlideMaxWidth slideWidth)
        (chartSlideMaxHeight slideHeight) w h).2 * w
        ≤ h * ((scaleChartImage (chartSlideMaxWidth slideWidth)
            (chartSlideMaxHeight slideHeight) w h).1 + 1) ∧
      centerLeft slideWidth (scaleChartImage (chartSlideMaxWidth slideWidth)
          (chartSlideMaxHeight slideHeight) w h).1
        ≤ slideWidth - (scaleChartImage (chartSlideMaxWidth slideWidth)
            (chartSlideMaxHeight slideHeight) w h).1
          - centerLeft slideWidth (scaleChartImage (chartSlideMaxWidth slideWidth)
              (chartSlideMaxHeight slideHeight) w h).1 ∧
      slideWidth - (scaleChartImage (chartSlideMaxWidth slideWidth)
          (chartSlideMaxHeight slideHeight) w h).1
        - centerLeft slideWidth (scaleChartImage (chartSlideMaxWidth slideWidth)
            (chartSlideMaxHeight slideHeight) w h).1
        ≤ centerLeft slideWidth (scaleChartImage (chartSlideMaxWidth slideWidth)
            (chartSlideMaxHeight slideHeight) w h).1 + 1 := by
  intro slideWidth slideHeight w h hw hh
  obtain ⟨c1, c2, c3, c4⟩ :=
    scaleChartImage_spec (chartSlideMaxWidth slideWidth)
      (chartSlideMaxHeight slideHeight) w h hw hh
  have hWle : chartSlideMaxWidth slideWidth ≤ slideWidth := Nat.sub_le _ _
  have hple : (scaleChartImage (chartSlideMaxWidth slideWidth)
      (chartSlideMaxHeight slideHeight) w h).1 ≤ slideWidth := le_trans c1 hWle
  refine ⟨c1, c2, c3, c4, ?_, ?_⟩ <;>
    · unfold centerLeft
      omega

/-- Claim C8, witness at a 1600 by 900 pixel chart image (at 9525 EMU per
pixel) on the 13.333 by 7.5 inch canvas. -/
theorem chart_image_scaling_fits_box_witness :
    0 < 15240000 ∧ 0 < 8572500 ∧
    ((scaleChartImage (chartSlideMaxWidth 12192000)
        (chartSlideMaxHeight 6858000) 15240000 8572500).1
       ≤ chartSlideMaxWidth 12192000 ∧
     (scaleChartImage (chartSlideMaxWidth 12192000)
        (chartSlideMaxHeight 6858000) 15240000 8572500).2
       ≤ chartSlideMaxHeight 6858000 ∧
     (scaleChartImage (chartSlideMaxWidth 12192000)
        (chartSlideMaxHeight 6858000) 15240000 8572500).1 * 8572500
       ≤ 15240000 * ((scaleChartImage (chartSlideMaxWidth 12192000)
           (chartSlideMaxHeight 6858000) 15240000 8572500).2 + 1) ∧
     (scaleChartImage (chartSlideMaxWidth 12192000)
        (chartSlideMaxHeight 6858000) 15240000 8572500).2 * 15240000
       ≤ 8572500 * ((scaleChartImage (chartSlideMaxWidth 12192000)
           (chartSlideMaxHeight 6858000) 15240000 8572500).1 + 1) ∧
     centerLeft 12192000 (scaleChartImage (chartSlideMaxWidth 12192000)
         (chartSlideMaxHeight 6858000) 15240000 8572500).1
       ≤ 12192000 - (scaleChartImage (chartSlideMaxWidth 12192000)
           (chartSlideMaxHeight 6858000) 15240000 8572500).1
         - centerLeft 12192000 (scaleChartImage (chartSlideMaxWidth 12192000)
             (chartSlideMaxHeight 6858000) 15240000 8572500).1 ∧
     12192000 - (scaleChartImage (chartSlideMaxWidth 12192000)
         (chartSlideMaxHeight 6858000) 15240000 8572500).1
       - centerLeft 12192000 (scaleChartImage (chartSlideMaxWidth 12192000)
           (chartSlideMaxHeight 6858000) 15240000 8572500).1
       ≤ centerLeft 12192000 (scaleChartImage (chartSlideMaxWidth 12192000)
           (chartSlideMaxHeight 6858000) 15240000 8572500).1 + 1) :=
  ⟨by decide, by decide,
   chart_image_scaling_fits_box 12192000 6858000 15240000 8572500
     (by decide) (by decide)⟩

end AIPPT
